import Mathlib

/-!
# Verification of the sun-moon-builder astronomical dial engine

Shallow embedding of the time/angle conversion, twilight arithmetic, moon
window resolution, lunar-cycle calculation, TTL cache and data-service
control flow of the sun-moon-builder repository, together with proofs of
the stated properties.

JavaScript numbers that only ever hold exact decimal values are modelled
as rationals (`ℚ`); the one transcendental computation (lunar illumination,
which calls `Math.cos`) is modelled over the reals.  String-valued time
fields are modelled as Lean `String`s, with explicit executable models of
the JavaScript host primitives the code relies on (`String.prototype.split`
with a one-character separator, `Number(string)` on the string shapes the
program meets, and template-literal stringification of integers).
-/

namespace SunMoonBuilder

/-! ## Models of the JavaScript host primitives -/

/-- Accumulator-passing core of `splitOnColon`. -/
def splitOnColonAux : List Char → List Char → List String
  | [], acc => [String.mk acc.reverse]
  | c :: rest, acc =>
    if c = ':' then String.mk acc.reverse :: splitOnColonAux rest []
    else splitOnColonAux rest (c :: acc)

/-- Model of JavaScript `s.split(":")`: splits at every `':'`, keeping empty
fields, so `"" ↦ [""]`, `"a:b" ↦ ["a","b"]`, `"::" ↦ ["","",""]`. -/
def splitOnColon (s : String) : List String :=
  splitOnColonAux s.data []

/-- Numeric value of a decimal digit character. -/
def digitVal (c : Char) : ℕ := c.toNat - '0'.toNat

/-- Value of a list of decimal digit characters, most significant first. -/
def digitsToNat (l : List Char) : ℕ :=
  l.foldl (fun n c => 10 * n + digitVal c) 0

/-- Model of JavaScript `Number(s)` restricted to the string shapes this
program can meet in a time field: the empty string converts to `0`, a
non-empty string of decimal digits converts to its value, a `'-'` followed
by a non-empty string of decimal digits converts to the negated value, and
everything else is `NaN`, modelled as `none`. -/
def jsNumber (s : String) : Option ℤ :=
  match s.data with
  | [] => some 0
  | '-' :: rest =>
    if rest ≠ [] ∧ rest.all Char.isDigit then some (-(digitsToNat rest : ℤ)) else none
  | l => if l.all Char.isDigit then some ((digitsToNat l : ℤ)) else none

/-- Digit characters of a natural number, most significant first
(fuel-based so that it is structurally recursive). -/
def natToCharsAux : ℕ → ℕ → List Char
  | 0, _ => []
  | fuel + 1, n =>
    if n < 10 then [Char.ofNat (n + 48)]
    else natToCharsAux fuel (n / 10) ++ [Char.ofNat (n % 10 + 48)]

/-- Model of JavaScript template-literal stringification of a nonnegative
integer-valued number. -/
def natToString (n : ℕ) : String := String.mk (natToCharsAux (n + 1) n)

/-- Model of JavaScript template-literal stringification `${n}` of an
integer-valued number. -/
def intToString (n : ℤ) : String :=
  if n < 0 then "-" ++ natToString n.natAbs else natToString n.toNat

/-! ## SunMoonImage.getAngle -/

/-- Embedding of `SunMoonImage.getAngle` (src/SunMoonImage.ts, lines
629-644).  Splits the time string on `':'`, validates that at least two
fields are present, that both convert to numbers, and that hour ∈ [0,23]
and minute ∈ [0,59]; on failure logs a warning and returns the sentinel
angle 0.  The returned pair is (angle, warned): the `Bool` records whether
the warning branch was taken. -/
def getAngle (timeStr : String) : ℚ × Bool :=
  let timeElements := splitOnColon timeStr
  let h := jsNumber (timeElements.getD 0 "")
  let m := jsNumber (timeElements.getD 1 "")
  if timeElements.length < 2 ∨ h = none ∨ m = none ∨
      h.getD 0 < 0 ∨ 23 < h.getD 0 ∨ m.getD 0 < 0 ∨ 59 < m.getD 0 then
    (0, true)
  else
    ((h.getD 0 : ℚ) * 15 + (m.getD 0 : ℚ) / 4, false)

/-! ## SunMoonImage.formatTime -/

/-- Embedding of `SunMoonImage.formatTime` (src/SunMoonImage.ts, lines
667-689).  Same validation as `getAngle`; on failure returns `""` (after a
logged warning).  On success renders 12-hour time: hour `% 12` with `0`
mapped to `12` and no leading zero, minute zero-padded to two digits, and
suffix `PM` exactly when the 24-hour hour exceeds 11. -/
def formatTime (timeStr : String) : String :=
  let timeElements := splitOnColon timeStr
  let h := jsNumber (timeElements.getD 0 "")
  let m := jsNumber (timeElements.getD 1 "")
  if timeElements.length < 2 ∨ h = none ∨ m = none ∨
      h.getD 0 < 0 ∨ 23 < h.getD 0 ∨ m.getD 0 < 0 ∨ 59 < m.getD 0 then
    ""
  else
    let hour0 := h.getD 0 % 12
    let hour := if hour0 = 0 then 12 else hour0
    let min := m.getD 0
    let minStr := if min < 10 then "0" ++ intToString min else intToString min
    let amPmStr := if 11 < h.getD 0 then "PM" else "AM"
    intToString hour ++ ":" ++ minStr ++ " " ++ amPmStr

/-! ## SunMoonImage.getTwilight -/

/-- Embedding of `SunMoonImage.getTwilight` (src/SunMoonImage.ts, lines
697-739).  Same validation, returning `""` on failure.  On success the
hour is first reduced `% 12` (`0 ↦ 12`), then shifted: for `"am"`,
minute ≥ 36 gives (hour-1, minute-36) and otherwise (hour-2, minute+24);
for the other branch, minute < 36 gives (hour+1, minute+24) and otherwise
(hour+2, minute-36).  Both fields are zero-padded to two digits. -/
def getTwilight (timeStr : String) (amPm : String) : String :=
  let timeElements := splitOnColon timeStr
  let h := jsNumber (timeElements.getD 0 "")
  let m := jsNumber (timeElements.getD 1 "")
  if timeElements.length < 2 ∨ h = none ∨ m = none ∨
      h.getD 0 < 0 ∨ 23 < h.getD 0 ∨ m.getD 0 < 0 ∨ 59 < m.getD 0 then
    ""
  else
    let hour0 := h.getD 0 % 12
    let hour1 := if hour0 = 0 then 12 else hour0
    let min0 := m.getD 0
    let hm :=
      if amPm = "am" then
        if 36 ≤ min0 then (hour1 - 1, min0 - 36) else (hour1 - 2, min0 + 24)
      else
        if min0 < 36 then (hour1 + 1, min0 + 24) else (hour1 + 2, min0 - 36)
    let hourStr := if hm.1 < 10 then "0" ++ intToString hm.1 else intToString hm.1
    let minStr := if hm.2 < 10 then "0" ++ intToString hm.2 else intToString hm.2
    hourStr ++ ":" ++ minStr

/-! ## SunMoonImage.getImage: moon window resolution -/

/-- Embedding of the moonrise/moonset handling inside
`SunMoonImage.getImage` (src/SunMoonImage.ts, lines 93-96 and 253-259):
the no-event sentinel `"-:-"` is replaced by `"0:0"` for moonrise and by
`"23:59"` for moonset before conversion, and 360 is added to the moonset
angle when it is numerically less than the moonrise angle.  Returns the
pair (moonriseAngle, resolved moonsetAngle). -/
def getImageMoonAngles (moonriseStr moonsetStr : String) : ℚ × ℚ :=
  let mr := if moonriseStr = "-:-" then "0:0" else moonriseStr
  let ms := if moonsetStr = "-:-" then "23:59" else moonsetStr
  let moonriseAngle := (getAngle mr).1
  let moonsetAngle := (getAngle ms).1
  let moonsetAngle' := if moonsetAngle < moonriseAngle then moonsetAngle + 360 else moonsetAngle
  (moonriseAngle, moonsetAngle')

/-! ## Kache (TTL cache) -/

/-- One entry of the cache backing store (`KacheItem` in Kache.ts; the
human-readable `comment` field is derived display data and carries no
behavior). -/
structure KacheItem (V : Type) where
  expiration : ℤ
  item : V

/-- The cache storage, a string-keyed map modelled as an association list
with unique keys (a JavaScript object). -/
abbrev KacheStorage (V : Type) : Type := List (String × KacheItem V)

/-- Embedding of `Kache.get` (Kache.ts): returns the entry's item exactly
when the key is present and its expiration is strictly greater than the
current time (`expiration > now.getTime()`); otherwise returns `null`,
modelled as `none`. -/
def kacheGet {V : Type} (storage : KacheStorage V) (key : String) (now : ℤ) : Option V :=
  match storage.lookup key with
  | some cacheItem => if now < cacheItem.expiration then some cacheItem.item else none
  | none => none

/-- Embedding of `Kache.set` (Kache.ts): inserts or overwrites the entry
under `key` (JavaScript object assignment; the synchronous file rewrite has
no effect on the in-memory map). -/
def kacheSet {V : Type} (storage : KacheStorage V) (key : String) (newItem : V)
    (expirationTime : ℤ) : KacheStorage V :=
  (key, ⟨expirationTime, newItem⟩) :: storage.filter (fun e => !(e.1 == key))

/-- Embedding of the load sweep in the `Kache` constructor (Kache.ts): every
deserialized entry with `expiration < now` is deleted; the rest are kept. -/
def kacheLoadSweep {V : Type} (entries : KacheStorage V) (now : ℤ) : KacheStorage V :=
  entries.filter (fun e => !decide (e.2.expiration < now))

/-! ## SunMoonData.getSunMoonData control flow -/

/-- Outcome of the awaited `axios.get` call in
`SunMoonData.getSunMoonData`: the promise either rejects (network error,
timeout — caught by the `try/catch`) or resolves with a possibly-null
`response.data`. -/
inductive FetchOutcome (Raw : Type) where
  | throws : FetchOutcome Raw
  | returns : Option Raw → FetchOutcome Raw

/-- Embedding of the cache/fetch control flow of
`SunMoonData.getSunMoonData` (src/SunMoonData.ts, lines 89-116).  The
environment-dependent pieces are parameters: `fetch` is the outcome of the
provider call, `augment` stands for the lunar augmentation of lines
101-104, and `midnightTonight` for the `moment().tz(timeZone).endOf("day")`
expiration.  Returns the result together with the cache storage after the
call. -/
def getSunMoonData {Raw Aug : Type} (storage : KacheStorage Aug) (key : String) (now : ℤ)
    (fetch : FetchOutcome Raw) (augment : Raw → Aug) (midnightTonight : ℤ) :
    Option Aug × KacheStorage Aug :=
  match kacheGet storage key now with
  | some sunMoonJson => (some sunMoonJson, storage)
  | none =>
    match fetch with
    | .throws => (none, storage)
    | .returns none => (none, storage)
    | .returns (some raw) =>
      let rawJson := augment raw
      (some rawJson, kacheSet storage key rawJson midnightTonight)

/-! ## SunMoonData: lunar cycle -/

def MOON_PERIOD_DAYS : ℚ := 29.53058770576
def UNIX_EPOCH : ℚ := 2440587.5
def LUNAR_REFERENCE : ℚ := 2451550.1
def MSEC_PER_DAY : ℚ := 24 * 60 * 60 * 1000
def MIN_PER_DAY : ℚ := 24 * 60

/-- Model of the JavaScript `%` operator on finite numbers: the remainder
of truncated division, `a - b * trunc(a / b)`. -/
def jsRem (a b : ℚ) : ℚ :=
  a - b * (if 0 ≤ a / b then ((⌊a / b⌋ : ℤ) : ℚ) else ((⌈a / b⌉ : ℤ) : ℚ))

/-- The `julianDate` expression inside `SunMoonData.getMoonAgeDays`
(src/SunMoonData.ts, line 126): `date.getTime()` is the epoch-milliseconds
argument and `date.getTimezoneOffset()` the timezone-offset-minutes
argument. -/
def julianDate (epochMillis tzOffsetMinutes : ℚ) : ℚ :=
  epochMillis / MSEC_PER_DAY - tzOffsetMinutes / MIN_PER_DAY + UNIX_EPOCH

/-- Embedding of `SunMoonData.getMoonAgeDays` (src/SunMoonData.ts, lines
125-131): `(julianDate - LUNAR_REFERENCE) % MOON_PERIOD_DAYS`, incremented
by 1 (`ageDays++`) when negative. -/
def getMoonAgeDays (epochMillis tzOffsetMinutes : ℚ) : ℚ :=
  let ageDays := jsRem (julianDate epochMillis tzOffsetMinutes - LUNAR_REFERENCE) MOON_PERIOD_DAYS
  if ageDays < 0 then ageDays + 1 else ageDays

/-- Real-valued copy of `MOON_PERIOD_DAYS` for the one function that feeds
it into `Math.cos`. -/
def MOON_PERIOD_DAYS_R : ℝ := 29.53058770576

/-- Embedding of the cosine expression inside
`SunMoonData.getMoonIllumination` (src/SunMoonData.ts, lines 164-168):
`50 + 50 * cos((ageDays / MOON_PERIOD_DAYS * 360 + 180) * π / 180)`. -/
noncomputable def getMoonIllumination (ageDays : ℝ) : ℝ :=
  50 + 50 * Real.cos ((ageDays / MOON_PERIOD_DAYS_R * 360 + 180) * Real.pi / 180)

/-- The integer percentage actually rendered by
`SunMoonData.getMoonIllumination`: `illumination.toFixed(0)` rounds to the
nearest integer (Lean's `round` agrees with it on the nonnegative values
this function produces). -/
noncomputable def getMoonIlluminationPct (ageDays : ℝ) : ℤ :=
  round (getMoonIllumination ageDays)

/-- The local `phaseLength` constant of `SunMoonData.getPhaseStr`:
one sixteenth of the lunar period. -/
def phaseLength : ℚ := MOON_PERIOD_DAYS / 16

/-- Embedding of `SunMoonData.getPhaseStr` (src/SunMoonData.ts, lines
187-198), including its spelling of each phase name. -/
def getPhaseStr (ageDays : ℚ) : String :=
  if ageDays < phaseLength then "New Moon"
  else if ageDays < phaseLength * 3 then "Waxing Crescent"
  else if ageDays < phaseLength * 5 then "First Quarter"
  else if ageDays < phaseLength * 7 then "Waxing Gibbous"
  else if ageDays < phaseLength * 9 then "Full Moon"
  else if ageDays < phaseLength * 11 then "Waning Gibbus"
  else if ageDays < phaseLength * 13 then "Last Quarter"
  else if ageDays < phaseLength * 15 then "Waning Crescent"
  else "New Moon"

/-! ## Helper lemmas about getAngle -/

theorem getAngle_eq_of_valid (s : String) (h m : ℤ)
    (hlen : 2 ≤ (splitOnColon s).length)
    (hh : jsNumber ((splitOnColon s).getD 0 "") = some h)
    (hm : jsNumber ((splitOnColon s).getD 1 "") = some m)
    (hh0 : 0 ≤ h) (hh23 : h ≤ 23) (hm0 : 0 ≤ m) (hm59 : m ≤ 59) :
    getAngle s = ((h : ℚ) * 15 + (m : ℚ) / 4, false) := by
  simp only [getAngle, hh, hm, Option.getD_some]
  rw [if_neg]
  push_neg
  exact ⟨by omega, by simp, by simp, hh0, hh23, hm0, hm59⟩

theorem getAngle_eq_of_invalid (s : String)
    (hbad : (splitOnColon s).length < 2 ∨
      jsNumber ((splitOnColon s).getD 0 "") = none ∨
      jsNumber ((splitOnColon s).getD 1 "") = none ∨
      (jsNumber ((splitOnColon s).getD 0 "")).getD 0 < 0 ∨
      23 < (jsNumber ((splitOnColon s).getD 0 "")).getD 0 ∨
      (jsNumber ((splitOnColon s).getD 1 "")).getD 0 < 0 ∨
      59 < (jsNumber ((splitOnColon s).getD 1 "")).getD 0) :
    getAngle s = (0, true) := by
  simp only [getAngle]
  rw [if_pos hbad]

theorem getAngle_bounds (s : String) :
    0 ≤ (getAngle s).1 ∧ (getAngle s).1 ≤ 359.75 := by
  simp only [getAngle]
  split
  · norm_num
  · next hcond =>
      push_neg at hcond
      obtain ⟨-, -, -, h0, h23, m0, m59⟩ := hcond
      have c0 : (0 : ℚ) ≤ ((jsNumber ((splitOnColon s).getD 0 "")).getD 0 : ℚ) := by
        exact_mod_cast h0
      have c23 : ((jsNumber ((splitOnColon s).getD 0 "")).getD 0 : ℚ) ≤ 23 := by
        exact_mod_cast h23
      have d0 : (0 : ℚ) ≤ ((jsNumber ((splitOnColon s).getD 1 "")).getD 0 : ℚ) := by
        exact_mod_cast m0
      have d59 : ((jsNumber ((splitOnColon s).getD 1 "")).getD 0 : ℚ) ≤ 59 := by
        exact_mod_cast m59
      constructor
      · linarith
      · linarith

theorem getAngle_0000 : getAngle "00:00" = (0, false) := by
  rw [getAngle_eq_of_valid "00:00" 0 0 (by decide) (by decide) (by decide) (by decide)
    (by decide) (by decide) (by decide)]
  norm_num

theorem getAngle_1200 : getAngle "12:00" = (180, false) := by
  rw [getAngle_eq_of_valid "12:00" 12 0 (by decide) (by decide) (by decide) (by decide)
    (by decide) (by decide) (by decide)]
  norm_num

theorem getAngle_2359 : getAngle "23:59" = (359.75, false) := by
  rw [getAngle_eq_of_valid "23:59" 23 59 (by decide) (by decide) (by decide) (by decide)
    (by decide) (by decide) (by decide)]
  norm_num

/-! ## Claim C1 -/

/-- C1: for every time string whose first two colon-delimited fields parse
as an hour in [0,23] and a minute in [0,59] (further fields being ignored),
`getAngle` returns exactly `hour*15 + minute/4`; consequently it is
monotonically non-decreasing in time-of-day over valid inputs, with
`getAngle "00:00" = 0`, `getAngle "12:00" = 180`, and
`getAngle "23:59" = 359.75`. -/
theorem getAngle_valid_formula :
    (∀ (s : String) (h m : ℤ),
        2 ≤ (splitOnColon s).length →
        jsNumber ((splitOnColon s).getD 0 "") = some h →
        jsNumber ((splitOnColon s).getD 1 "") = some m →
        0 ≤ h → h ≤ 23 → 0 ≤ m → m ≤ 59 →
        (getAngle s).1 = (h : ℚ) * 15 + (m : ℚ) / 4)
    ∧ (∀ (s₁ s₂ : String) (h₁ m₁ h₂ m₂ : ℤ),
        2 ≤ (splitOnColon s₁).length →
        jsNumber ((splitOnColon s₁).getD 0 "") = some h₁ →
        jsNumber ((splitOnColon s₁).getD 1 "") = some m₁ →
        0 ≤ h₁ → h₁ ≤ 23 → 0 ≤ m₁ → m₁ ≤ 59 →
        2 ≤ (splitOnColon s₂).length →
        jsNumber ((splitOnColon s₂).getD 0 "") = some h₂ →
        jsNumber ((splitOnColon s₂).getD 1 "") = some m₂ →
        0 ≤ h₂ → h₂ ≤ 23 → 0 ≤ m₂ → m₂ ≤ 59 →
        (h₁ < h₂ ∨ (h₁ = h₂ ∧ m₁ ≤ m₂)) →
        (getAngle s₁).1 ≤ (getAngle s₂).1)
    ∧ (getAngle "00:00").1 = 0 ∧ (getAngle "12:00").1 = 180
    ∧ (getAngle "23:59").1 = 359.75 := by
  refine ⟨?_, ?_, ?_, ?_, ?_⟩
  · intro s h m hlen hh hm hh0 hh23 hm0 hm59
    rw [getAngle_eq_of_valid s h m hlen hh hm hh0 hh23 hm0 hm59]
  · intro s₁ s₂ h₁ m₁ h₂ m₂ hlen₁ hh₁ hm₁ hh₁0 hh₁23 hm₁0 hm₁59
      hlen₂ hh₂ hm₂ hh₂0 hh₂23 hm₂0 hm₂59 hord
    rw [getAngle_eq_of_valid s₁ h₁ m₁ hlen₁ hh₁ hm₁ hh₁0 hh₁23 hm₁0 hm₁59,
      getAngle_eq_of_valid s₂ h₂ m₂ hlen₂ hh₂ hm₂ hh₂0 hh₂23 hm₂0 hm₂59]
    rcases hord with hlt | ⟨heq, hmle⟩
    · have hle : (h₁ : ℚ) + 1 ≤ (h₂ : ℚ) := by exact_mod_cast Int.add_one_le_iff.mpr hlt
      have c1 : ((m₁ : ℚ)) ≤ 59 := by exact_mod_cast hm₁59
      have c2 : (0 : ℚ) ≤ (m₂ : ℚ) := by exact_mod_cast hm₂0
      simp only []
      linarith
    · subst heq
      have : ((m₁ : ℚ)) ≤ (m₂ : ℚ) := by exact_mod_cast hmle
      simp only []
      linarith
  · rw [getAngle_0000]
  · rw [getAngle_1200]
  · rw [getAngle_2359]

theorem getAngle_valid_formula_witness :
    2 ≤ (splitOnColon "06:20").length ∧
    jsNumber ((splitOnColon "06:20").getD 0 "") = some 6 ∧
    jsNumber ((splitOnColon "06:20").getD 1 "") = some 20 ∧
    (getAngle "06:20").1 = (6 : ℚ) * 15 + (20 : ℚ) / 4 :=
  ⟨by decide, by decide, by decide,
    getAngle_valid_formula.1 "06:20" 6 20 (by decide) (by decide) (by decide)
      (by decide) (by decide) (by decide) (by decide)⟩

/-! ## Claim C2 -/

/-- C2: for every input string with fewer than two colon-delimited fields,
or whose hour field is not a non-negative number or exceeds 23, or whose
minute field is not a non-negative number or exceeds 59 (in particular
"25:00", "12:61", "abc", and ""), `getAngle` takes the warning branch and
returns the sentinel angle 0; being a total function it never throws. -/
theorem getAngle_invalid_sentinel :
    (∀ s : String,
        ((splitOnColon s).length < 2 ∨
         jsNumber ((splitOnColon s).getD 0 "") = none ∨
         jsNumber ((splitOnColon s).getD 1 "") = none ∨
         (jsNumber ((splitOnColon s).getD 0 "")).getD 0 < 0 ∨
         23 < (jsNumber ((splitOnColon s).getD 0 "")).getD 0 ∨
         (jsNumber ((splitOnColon s).getD 1 "")).getD 0 < 0 ∨
         59 < (jsNumber ((splitOnColon s).getD 1 "")).getD 0) →
        getAngle s = (0, true))
    ∧ getAngle "25:00" = (0, true) ∧ getAngle "12:61" = (0, true)
    ∧ getAngle "abc" = (0, true) ∧ getAngle "" = (0, true) :=
  ⟨fun s hbad => getAngle_eq_of_invalid s hbad, by decide, by decide, by decide, by decide⟩

theorem getAngle_invalid_sentinel_witness :
    (23 < (jsNumber ((splitOnColon "25:00").getD 0 "")).getD 0) ∧
    getAngle "25:00" = (0, true) :=
  ⟨by decide,
    getAngle_invalid_sentinel.1 "25:00"
      (Or.inr (Or.inr (Or.inr (Or.inr (Or.inl (by decide))))))⟩

/-! ## Claim C10 -/

theorem formatTime_eq_of_valid (s : String) (h m : ℤ)
    (hlen : 2 ≤ (splitOnColon s).length)
    (hh : jsNumber ((splitOnColon s).getD 0 "") = some h)
    (hm : jsNumber ((splitOnColon s).getD 1 "") = some m)
    (hh0 : 0 ≤ h) (hh23 : h ≤ 23) (hm0 : 0 ≤ m) (hm59 : m ≤ 59) :
    formatTime s =
      intToString (if h % 12 = 0 then 12 else h % 12) ++ ":" ++
      (if m < 10 then "0" ++ intToString m else intToString m) ++ " " ++
      (if 11 < h then "PM" else "AM") := by
  simp only [formatTime, hh, hm, Option.getD_some]
  rw [if_neg]
  push_neg
  exact ⟨by omega, by simp, by simp, hh0, hh23, hm0, hm59⟩

theorem hour12_shift (h : ℤ) (h0 : 0 ≤ h) (h23 : h ≤ 23) :
    (if h % 12 = 0 then (12 : ℤ) else h % 12) = (h + 11) % 12 + 1 := by
  interval_cases h <;> decide

/-- C10: for every valid 24-hour input, `formatTime` renders the hour as
`((HH + 11) mod 12) + 1` with no leading zero, the minute zero-padded to
two digits, and the suffix "AM" exactly when `HH ≤ 11`; in particular
`formatTime "00:45" = "12:45 AM"` and `formatTime "12:05" = "12:05 PM"`. -/
theorem formatTime_12h :
    (∀ (s : String) (h m : ℤ),
        2 ≤ (splitOnColon s).length →
        jsNumber ((splitOnColon s).getD 0 "") = some h →
        jsNumber ((splitOnColon s).getD 1 "") = some m →
        0 ≤ h → h ≤ 23 → 0 ≤ m → m ≤ 59 →
        formatTime s =
          intToString ((h + 11) % 12 + 1) ++ ":" ++
          (if m < 10 then "0" ++ intToString m else intToString m) ++ " " ++
          (if h ≤ 11 then "AM" else "PM"))
    ∧ formatTime "00:45" = "12:45 AM" ∧ formatTime "12:05" = "12:05 PM" := by
  refine ⟨?_, by decide, by decide⟩
  intro s h m hlen hh hm hh0 hh23 hm0 hm59
  rw [formatTime_eq_of_valid s h m hlen hh hm hh0 hh23 hm0 hm59, hour12_shift h hh0 hh23]
  congr 1
  by_cases hle : h ≤ 11
  · rw [if_neg (by omega), if_pos hle]
  · rw [if_pos (by omega), if_neg hle]

theorem formatTime_12h_witness :
    2 ≤ (splitOnColon "22:45").length ∧
    formatTime "22:45" =
      intToString (((22 : ℤ) + 11) % 12 + 1) ++ ":" ++
      (if (45 : ℤ) < 10 then "0" ++ intToString 45 else intToString 45) ++ " " ++
      (if (22 : ℤ) ≤ 11 then "AM" else "PM") :=
  ⟨by decide,
    formatTime_12h.1 "22:45" 22 45 (by decide) (by decide) (by decide) (by decide)
      (by decide) (by decide) (by decide)⟩

/-! ## Claim C3 -/

/-- C3 (code-bug evidence): at the sunset "19:04" the "pm" direction of
`getTwilight` returns "08:28" — 84 minutes later on the 12-hour clock —
not a time 96 minutes later ("20:40"), even though the surrounding code
fixes the twilight band at 24 degrees = 96 minutes and the "am" direction
does shift by exactly 96 minutes ("06:20" ↦ "04:44"). -/
theorem getTwilight_pm_failing :
    getTwilight "19:04" "pm" = "08:28" ∧ getTwilight "19:04" "pm" ≠ "20:40"
    ∧ getTwilight "06:20" "am" = "04:44" := by decide

/-! ## Claim C4 -/

theorem getImageMoonAngles_def (r s : String) :
    getImageMoonAngles r s =
      ((getAngle (if r = "-:-" then "0:0" else r)).1,
        if (getAngle (if s = "-:-" then "23:59" else s)).1 <
            (getAngle (if r = "-:-" then "0:0" else r)).1
        then (getAngle (if s = "-:-" then "23:59" else s)).1 + 360
        else (getAngle (if s = "-:-" then "23:59" else s)).1) := rfl

theorem getAngle_00 : getAngle "0:0" = (0, false) := by
  rw [getAngle_eq_of_valid "0:0" 0 0 (by decide) (by decide) (by decide) (by decide)
    (by decide) (by decide) (by decide)]
  norm_num

theorem getAngle_1022 : getAngle "10:22" = (155.5, false) := by
  rw [getAngle_eq_of_valid "10:22" 10 22 (by decide) (by decide) (by decide) (by decide)
    (by decide) (by decide) (by decide)]
  norm_num

theorem getAngle_2000 : getAngle "20:00" = (300, false) := by
  rw [getAngle_eq_of_valid "20:00" 20 0 (by decide) (by decide) (by decide) (by decide)
    (by decide) (by decide) (by decide)]
  norm_num

theorem getAngle_0640 : getAngle "06:40" = (100, false) := by
  rw [getAngle_eq_of_valid "06:40" 6 40 (by decide) (by decide) (by decide) (by decide)
    (by decide) (by decide) (by decide)]
  norm_num

/-- C4 counterexample: with moonrise "10:22" and the moonset no-event
sentinel, the resolved moonset angle is 359.75°, not the 360° the claim
states. -/
theorem moonset_sentinel_not_360 :
    (getImageMoonAngles "10:22" "-:-").2 ≠ 360 := by
  rw [getImageMoonAngles_def, if_neg (by decide : ¬("10:22" = "-:-")), if_pos rfl,
    getAngle_1022, getAngle_2359]
  norm_num

/-- C4 amended: the moonrise sentinel resolves to angle 0° and the moonset
sentinel to 359.75° (the dial angle of "23:59", the last minute of the
day, rather than 360°); whenever the converted moonset angle is less than
the moonrise angle 360° is added, so the resolved moonset angle is always
at least the moonrise angle; rise 300° with set 100° resolves to set
460°. -/
theorem moon_window_resolution :
    (∀ s : String, (getImageMoonAngles "-:-" s).1 = 0)
    ∧ (∀ r : String, (getImageMoonAngles r "-:-").2 = 359.75)
    ∧ (∀ r s : String, (getImageMoonAngles r s).1 ≤ (getImageMoonAngles r s).2)
    ∧ getImageMoonAngles "20:00" "06:40" = (300, 460) := by
  refine ⟨?_, ?_, ?_, ?_⟩
  · intro s
    rw [getImageMoonAngles_def, if_pos rfl]
    simp [getAngle_00]
  · intro r
    have hb := (getAngle_bounds (if r = "-:-" then "0:0" else r)).2
    rw [getImageMoonAngles_def, if_pos rfl, getAngle_2359]
    dsimp only
    rw [if_neg]
    intro hcon
    have : (359.75 : ℚ) < 359.75 := lt_of_lt_of_le hcon hb
    exact absurd this (lt_irrefl _)
  · intro r s
    rw [getImageMoonAngles_def]
    dsimp only
    have h1 := (getAngle_bounds (if r = "-:-" then "0:0" else r)).2
    have h2 := (getAngle_bounds (if s = "-:-" then "23:59" else s)).1
    by_cases hlt : (getAngle (if s = "-:-" then "23:59" else s)).1 <
        (getAngle (if r = "-:-" then "0:0" else r)).1
    · rw [if_pos hlt]
      linarith
    · rw [if_neg hlt]
      exact not_lt.mp hlt
  · rw [getImageMoonAngles_def, if_neg (by decide : ¬("20:00" = "-:-")),
      if_neg (by decide : ¬("06:40" = "-:-")), getAngle_2000, getAngle_0640]
    norm_num

/-! ## Claim C5 -/

/-- C5: TTL cache contract.  After `set k v t`, `get k` returns `v` at
every current time strictly less than `t` and misses once the current time
is at least `t`; in general `get` returns a payload only when the key is
present with an expiration strictly greater than the current time; and the
constructor load sweep drops every deserialized entry whose expiration is
already in the past. -/
theorem kache_ttl_contract :
    (∀ (V : Type) (storage : KacheStorage V) (k : String) (v : V) (t now : ℤ),
        now < t → kacheGet (kacheSet storage k v t) k now = some v)
    ∧ (∀ (V : Type) (storage : KacheStorage V) (k : String) (v : V) (t now : ℤ),
        t ≤ now → kacheGet (kacheSet storage k v t) k now = none)
    ∧ (∀ (V : Type) (storage : KacheStorage V) (k : String) (now : ℤ) (v : V),
        kacheGet storage k now = some v →
        ∃ ci : KacheItem V, storage.lookup k = some ci ∧ ci.item = v ∧ now < ci.expiration)
    ∧ (∀ (V : Type) (entries : KacheStorage V) (now : ℤ) (e : String × KacheItem V),
        e ∈ entries → e.2.expiration < now → e ∉ kacheLoadSweep entries now) := by
  refine ⟨?_, ?_, ?_, ?_⟩
  · intro V storage k v t now hlt
    simp [kacheGet, kacheSet, List.lookup, hlt]
  · intro V storage k v t now hge
    simp [kacheGet, kacheSet, List.lookup, not_lt.mpr hge]
  · intro V storage k now v hget
    unfold kacheGet at hget
    rcases hlk : storage.lookup k with _ | ci
    · rw [hlk] at hget
      simp at hget
    · rw [hlk] at hget
      dsimp only at hget
      by_cases hexp : now < ci.expiration
      · rw [if_pos hexp] at hget
        refine ⟨ci, rfl, ?_, hexp⟩
        injection hget with hv
      · rw [if_neg hexp] at hget
        cases hget
  · intro V entries now e hmem hpast hswept
    simp only [kacheLoadSweep, List.mem_filter] at hswept
    have := hswept.2
    simp at this
    omega

theorem kache_ttl_contract_witness :
    (0 : ℤ) < 10 ∧ kacheGet (kacheSet ([] : KacheStorage ℤ) "k" 7 10) "k" 0 = some 7 :=
  ⟨by decide, kache_ttl_contract.1 ℤ [] "k" 7 10 0 (by decide)⟩

/-! ## Claim C6 -/

/-- C6: on a cache miss, if the provider fetch throws or returns no data,
`getSunMoonData` returns `null` and the cache storage is unchanged (no
`set` happens on that call); the augmented snapshot is stored only on the
successful-fetch path. -/
theorem getSunMoonData_failure_no_cache_write :
    (∀ (Raw Aug : Type) (storage : KacheStorage Aug) (key : String) (now : ℤ)
        (fetch : FetchOutcome Raw) (augment : Raw → Aug) (midnightTonight : ℤ),
        kacheGet storage key now = none →
        (fetch = FetchOutcome.throws ∨ fetch = FetchOutcome.returns none) →
        getSunMoonData storage key now fetch augment midnightTonight = (none, storage))
    ∧ (∀ (Raw Aug : Type) (storage : KacheStorage Aug) (key : String) (now : ℤ)
        (raw : Raw) (augment : Raw → Aug) (midnightTonight : ℤ),
        kacheGet storage key now = none →
        getSunMoonData storage key now (FetchOutcome.returns (some raw)) augment midnightTonight =
          (some (augment raw), kacheSet storage key (augment raw) midnightTonight)) := by
  constructor
  · intro Raw Aug storage key now fetch augment midnightTonight hmiss hfail
    unfold getSunMoonData
    rw [hmiss]
    rcases hfail with h | h <;> rw [h]
  · intro Raw Aug storage key now raw augment midnightTonight hmiss
    unfold getSunMoonData
    rw [hmiss]

theorem getSunMoonData_failure_no_cache_write_witness :
    kacheGet ([] : KacheStorage ℤ) "k" 0 = none ∧
    getSunMoonData ([] : KacheStorage ℤ) "k" 0 (FetchOutcome.throws : FetchOutcome ℤ) id 0 =
      (none, ([] : KacheStorage ℤ)) :=
  ⟨rfl, getSunMoonData_failure_no_cache_write.1 ℤ ℤ [] "k" 0 FetchOutcome.throws id 0 rfl
    (Or.inl rfl)⟩

/-! ## Claim C7 -/

theorem jsRem_nonneg_lt (a b : ℚ) (ha : 0 ≤ a) (hb : 0 < b) :
    0 ≤ jsRem a b ∧ jsRem a b < b := by
  have hq : 0 ≤ a / b := div_nonneg ha hb.le
  rw [jsRem, if_pos hq]
  have h1 : ((⌊a / b⌋ : ℤ) : ℚ) ≤ a / b := Int.floor_le _
  have h2 : a / b < ⌊a / b⌋ + 1 := Int.lt_floor_add_one _
  have hab : a / b * b = a := div_mul_cancel₀ a (ne_of_gt hb)
  constructor
  · nlinarith [mul_le_mul_of_nonneg_right h1 hb.le]
  · nlinarith [mul_lt_mul_of_pos_right h2 hb]

/-- C7: `getMoonAgeDays` is the truncated-division remainder
`(julianDate - 2451550.1) % 29.53058770576` of the julian date computed as
`epochMillis/msPerDay - tzOffsetMinutes/minPerDay + 2440587.5`, with 1
added (not a full period) when that remainder is negative; and whenever
the julian date is at or after the lunar reference, the result lies in
`[0, 29.53058770576)`. -/
theorem getMoonAgeDays_formula_and_range :
    (∀ epochMillis tzOffsetMinutes : ℚ,
        getMoonAgeDays epochMillis tzOffsetMinutes =
          if jsRem (julianDate epochMillis tzOffsetMinutes - LUNAR_REFERENCE)
              MOON_PERIOD_DAYS < 0
          then jsRem (julianDate epochMillis tzOffsetMinutes - LUNAR_REFERENCE)
              MOON_PERIOD_DAYS + 1
          else jsRem (julianDate epochMillis tzOffsetMinutes - LUNAR_REFERENCE)
              MOON_PERIOD_DAYS)
    ∧ (∀ epochMillis tzOffsetMinutes : ℚ,
        LUNAR_REFERENCE ≤ julianDate epochMillis tzOffsetMinutes →
        0 ≤ getMoonAgeDays epochMillis tzOffsetMinutes ∧
          getMoonAgeDays epochMillis tzOffsetMinutes < MOON_PERIOD_DAYS) := by
  constructor
  · intro epochMillis tzOffsetMinutes
    rfl
  · intro epochMillis tzOffsetMinutes href
    have ha : 0 ≤ julianDate epochMillis tzOffsetMinutes - LUNAR_REFERENCE :=
      sub_nonneg.mpr href
    have hb : (0 : ℚ) < MOON_PERIOD_DAYS := by norm_num [MOON_PERIOD_DAYS]
    obtain ⟨g1, g2⟩ := jsRem_nonneg_lt _ _ ha hb
    simp only [getMoonAgeDays]
    rw [if_neg (not_lt.mpr g1)]
    exact ⟨g1, g2⟩

theorem getMoonAgeDays_formula_and_range_witness :
    LUNAR_REFERENCE ≤ julianDate 1000000000000 0 ∧
    (0 ≤ getMoonAgeDays 1000000000000 0 ∧
      getMoonAgeDays 1000000000000 0 < MOON_PERIOD_DAYS) :=
  ⟨by norm_num [julianDate, LUNAR_REFERENCE, MSEC_PER_DAY, MIN_PER_DAY, UNIX_EPOCH],
    getMoonAgeDays_formula_and_range.2 1000000000000 0
      (by norm_num [julianDate, LUNAR_REFERENCE, MSEC_PER_DAY, MIN_PER_DAY, UNIX_EPOCH])⟩

/-! ## Claim C8 -/

/-- C8: the lunar illumination percentage is
`50 + 50*cos((ageDays/period*360 + 180)*π/180)` rounded to the nearest
integer; it is 0 at `ageDays = 0`, 100 at `ageDays = period/2`, and
symmetric about the midpoint: for every `x` in `[0, period/2]`,
the illumination at `period/2 - x` equals the illumination at
`period/2 + x`. -/
theorem getMoonIllumination_spec :
    (∀ a : ℝ, getMoonIlluminationPct a =
        round (50 + 50 * Real.cos ((a / MOON_PERIOD_DAYS_R * 360 + 180) * Real.pi / 180)))
    ∧ getMoonIlluminationPct 0 = 0
    ∧ getMoonIlluminationPct (MOON_PERIOD_DAYS_R / 2) = 100
    ∧ (∀ x : ℝ, 0 ≤ x → x ≤ MOON_PERIOD_DAYS_R / 2 →
        getMoonIlluminationPct (MOON_PERIOD_DAYS_R / 2 - x) =
          getMoonIlluminationPct (MOON_PERIOD_DAYS_R / 2 + x)) := by
  have hP : (MOON_PERIOD_DAYS_R : ℝ) ≠ 0 := by norm_num [MOON_PERIOD_DAYS_R]
  refine ⟨fun a => rfl, ?_, ?_, ?_⟩
  · have harg : ((0 : ℝ) / MOON_PERIOD_DAYS_R * 360 + 180) * Real.pi / 180 = Real.pi := by
      rw [zero_div]
      ring_nf
    rw [getMoonIlluminationPct, getMoonIllumination, harg, Real.cos_pi]
    norm_num
  · have harg : (MOON_PERIOD_DAYS_R / 2 / MOON_PERIOD_DAYS_R * 360 + 180) * Real.pi / 180 =
        2 * Real.pi := by
      field_simp
      ring
    rw [getMoonIlluminationPct, getMoonIllumination, harg, Real.cos_two_pi]
    rw [show (50 : ℝ) + 50 * 1 = ((100 : ℤ) : ℝ) by norm_num, round_intCast]
  · intro x hx0 hx1
    have harg1 : ((MOON_PERIOD_DAYS_R / 2 - x) / MOON_PERIOD_DAYS_R * 360 + 180) *
          Real.pi / 180 =
        2 * Real.pi - x / MOON_PERIOD_DAYS_R * 360 * Real.pi / 180 := by
      field_simp
      ring
    have harg2 : ((MOON_PERIOD_DAYS_R / 2 + x) / MOON_PERIOD_DAYS_R * 360 + 180) *
          Real.pi / 180 =
        x / MOON_PERIOD_DAYS_R * 360 * Real.pi / 180 + 2 * Real.pi := by
      field_simp
      ring
    have hceq : Real.cos (2 * Real.pi - x / MOON_PERIOD_DAYS_R * 360 * Real.pi / 180) =
        Real.cos (x / MOON_PERIOD_DAYS_R * 360 * Real.pi / 180 + 2 * Real.pi) := by
      rw [Real.cos_add_two_pi,
        show 2 * Real.pi - x / MOON_PERIOD_DAYS_R * 360 * Real.pi / 180 =
          -(x / MOON_PERIOD_DAYS_R * 360 * Real.pi / 180 - 2 * Real.pi) by ring,
        Real.cos_neg, Real.cos_sub_two_pi]
    rw [getMoonIlluminationPct, getMoonIlluminationPct, getMoonIllumination,
      getMoonIllumination, harg1, harg2, hceq]

theorem getMoonIllumination_spec_witness :
    (0 : ℝ) ≤ 0 ∧ (0 : ℝ) ≤ MOON_PERIOD_DAYS_R / 2 ∧
    getMoonIlluminationPct (MOON_PERIOD_DAYS_R / 2 - 0) =
      getMoonIlluminationPct (MOON_PERIOD_DAYS_R / 2 + 0) :=
  ⟨le_refl 0, by norm_num [MOON_PERIOD_DAYS_R],
    getMoonIllumination_spec.2.2.2 0 (le_refl 0) (by norm_num [MOON_PERIOD_DAYS_R])⟩

/-! ## Claim C9 -/

/-- C9 counterexample: at an age in the waning-gibbous band (10/16 of the
lunar period) the code returns the string "Waning Gibbus", not the
"Waning Gibbous" of the claim. -/
theorem getPhaseStr_waning_spelling :
    getPhaseStr (phaseLength * 10) = "Waning Gibbus" ∧
    getPhaseStr (phaseLength * 10) ≠ "Waning Gibbous" := by
  have h : getPhaseStr (phaseLength * 10) = "Waning Gibbus" := by
    rw [getPhaseStr]
    rw [if_neg (by norm_num [phaseLength, MOON_PERIOD_DAYS]),
      if_neg (by norm_num [phaseLength, MOON_PERIOD_DAYS]),
      if_neg (by norm_num [phaseLength, MOON_PERIOD_DAYS]),
      if_neg (by norm_num [phaseLength, MOON_PERIOD_DAYS]),
      if_neg (by norm_num [phaseLength, MOON_PERIOD_DAYS]),
      if_pos (by norm_num [phaseLength, MOON_PERIOD_DAYS])]
  exact ⟨h, by rw [h]; decide⟩

/-- C9 amended: dividing the lunar period into 16 equal bins, `getPhaseStr`
maps bins 0 and 15 to "New Moon" and the intervening pairs of bins, in
order, to "Waxing Crescent", "First Quarter", "Waxing Gibbous",
"Full Moon", "Waning Gibbus" (the code's spelling), "Last Quarter",
"Waning Crescent"; `getPhaseStr 0 = "New Moon"` and
`getPhaseStr (period/2) = "Full Moon"`. -/
theorem getPhaseStr_bins :
    (∀ a : ℚ, 0 ≤ a → a < phaseLength → getPhaseStr a = "New Moon")
    ∧ (∀ a : ℚ, phaseLength ≤ a → a < phaseLength * 3 → getPhaseStr a = "Waxing Crescent")
    ∧ (∀ a : ℚ, phaseLength * 3 ≤ a → a < phaseLength * 5 → getPhaseStr a = "First Quarter")
    ∧ (∀ a : ℚ, phaseLength * 5 ≤ a → a < phaseLength * 7 → getPhaseStr a = "Waxing Gibbous")
    ∧ (∀ a : ℚ, phaseLength * 7 ≤ a → a < phaseLength * 9 → getPhaseStr a = "Full Moon")
    ∧ (∀ a : ℚ, phaseLength * 9 ≤ a → a < phaseLength * 11 → getPhaseStr a = "Waning Gibbus")
    ∧ (∀ a : ℚ, phaseLength * 11 ≤ a → a < phaseLength * 13 → getPhaseStr a = "Last Quarter")
    ∧ (∀ a : ℚ, phaseLength * 13 ≤ a → a < phaseLength * 15 → getPhaseStr a = "Waning Crescent")
    ∧ (∀ a : ℚ, phaseLength * 15 ≤ a → a < phaseLength * 16 → getPhaseStr a = "New Moon")
    ∧ getPhaseStr 0 = "New Moon"
    ∧ getPhaseStr (MOON_PERIOD_DAYS / 2) = "Full Moon" := by
  have hpl : (0 : ℚ) < phaseLength := by norm_num [phaseLength, MOON_PERIOD_DAYS]
  refine ⟨?_, ?_, ?_, ?_, ?_, ?_, ?_, ?_, ?_, ?_, ?_⟩
  · intro a h1 h2
    rw [getPhaseStr, if_pos h2]
  · intro a h1 h2
    rw [getPhaseStr, if_neg (by linarith), if_pos h2]
  · intro a h1 h2
    rw [getPhaseStr, if_neg (by linarith), if_neg (by linarith), if_pos h2]
  · intro a h1 h2
    rw [getPhaseStr, if_neg (by linarith), if_neg (by linarith), if_neg (by linarith),
      if_pos h2]
  · intro a h1 h2
    rw [getPhaseStr, if_neg (by linarith), if_neg (by linarith), if_neg (by linarith),
      if_neg (by linarith), if_pos h2]
  · intro a h1 h2
    rw [getPhaseStr, if_neg (by linarith), if_neg (by linarith), if_neg (by linarith),
      if_neg (by linarith), if_neg (by linarith), if_pos h2]
  · intro a h1 h2
    rw [getPhaseStr, if_neg (by linarith), if_neg (by linarith), if_neg (by linarith),
      if_neg (by linarith), if_neg (by linarith), if_neg (by linarith), if_pos h2]
  · intro a h1 h2
    rw [getPhaseStr, if_neg (by linarith), if_neg (by linarith), if_neg (by linarith),
      if_neg (by linarith), if_neg (by linarith), if_neg (by linarith),
      if_neg (by linarith), if_pos h2]
  · intro a h1 h2
    rw [getPhaseStr, if_neg (by linarith), if_neg (by linarith), if_neg (by linarith),
      if_neg (by linarith), if_neg (by linarith), if_neg (by linarith),
      if_neg (by linarith), if_neg (by linarith)]
  · rw [getPhaseStr, if_pos hpl]
  · rw [getPhaseStr]
    rw [if_neg (by norm_num [phaseLength, MOON_PERIOD_DAYS]),
      if_neg (by norm_num [phaseLength, MOON_PERIOD_DAYS]),
      if_neg (by norm_num [phaseLength, MOON_PERIOD_DAYS]),
      if_neg (by norm_num [phaseLength, MOON_PERIOD_DAYS]),
      if_pos (by norm_num [phaseLength, MOON_PERIOD_DAYS])]

theorem getPhaseStr_bins_witness :
    phaseLength * 7 ≤ phaseLength * 8 ∧ phaseLength * 8 < phaseLength * 9 ∧
    getPhaseStr (phaseLength * 8) = "Full Moon" :=
  ⟨by norm_num [phaseLength, MOON_PERIOD_DAYS],
    by norm_num [phaseLength, MOON_PERIOD_DAYS],
    getPhaseStr_bins.2.2.2.2.1 (phaseLength * 8)
      (by norm_num [phaseLength, MOON_PERIOD_DAYS])
      (by norm_num [phaseLength, MOON_PERIOD_DAYS])⟩

theorem moon_window_resolution_witness :
    (getImageMoonAngles "10:22" "21:11").1 ≤ (getImageMoonAngles "10:22" "21:11").2 :=
  moon_window_resolution.2.2.1 "10:22" "21:11"

end SunMoonBuilder
